import Mathlib

set_option maxHeartbeats 1000000

/-!
Verification development for the Eleven-labs-Twilio ingestion pipeline.

The definitions below are a shallow embedding of the Python source:
`sheets.py` (webhook normalization in `process_webhook_data`, deduplicating
persistence in `save_to_sheets` / `save_to_csv` / `get_existing_entries`,
and the paginated multi-endpoint retrieval engine `get_call_history`) and
`perplexity_summarize.py` (`extract_conversation_text`).

JSON payloads are modelled by the inductive `Json`; Python semantics that
the source relies on (truthiness, `dict.get`, the `in` operator, `or`
short-circuiting, `str()`, `str.capitalize`, iteration) are modelled by
the `py*` helpers.  Code paths on which Python raises an exception are
modelled with `Except Unit`; an `Except.error ()` corresponds to an
exception that the enclosing Python `try` block would catch.  External
library calls (`datetime.fromisoformat`, `datetime.now`, `time.time`,
the OpenAI summarizer, the network, Google credentials) are modelled as
explicit environment parameters.
-/

/-- A JSON value, as produced by `json.load` in the Python source. -/
inductive Json where
  | null : Json
  | bool : Bool → Json
  | num : Int → Json
  | str : String → Json
  | arr : List Json → Json
  | obj : List (String × Json) → Json

mutual
/-- Structural equality test for JSON values. -/
def jsonBeq : Json → Json → Bool
  | Json.null, Json.null => true
  | Json.bool a, Json.bool b => a == b
  | Json.num a, Json.num b => a == b
  | Json.str a, Json.str b => a == b
  | Json.arr a, Json.arr b => jsonBeqList a b
  | Json.obj a, Json.obj b => jsonBeqObj a b
  | _, _ => false

/-- Structural equality test for JSON lists. -/
def jsonBeqList : List Json → List Json → Bool
  | [], [] => true
  | a :: as, b :: bs => jsonBeq a b && jsonBeqList as bs
  | _, _ => false

/-- Structural equality test for JSON objects. -/
def jsonBeqObj : List (String × Json) → List (String × Json) → Bool
  | [], [] => true
  | (ka, va) :: as, (kb, vb) :: bs => ka == kb && jsonBeq va vb && jsonBeqObj as bs
  | _, _ => false
end

instance : BEq Json := ⟨jsonBeq⟩

/-- Python truthiness of a JSON value (`bool(x)`). -/
def pyTruthy : Json → Bool
  | Json.null => false
  | Json.bool b => b
  | Json.num n => n != 0
  | Json.str s => s != ""
  | Json.arr xs => !xs.isEmpty
  | Json.obj kvs => !kvs.isEmpty

/-- Python `a or b` on two already-evaluated values. -/
def pyOr (a b : Json) : Json := if pyTruthy a then a else b

/-- Python `a or b` where evaluating either side may raise; the right side
is only evaluated when the left is falsy (short-circuit). -/
def pyOrM (a b : Except Unit Json) : Except Unit Json := do
  let x ← a
  if pyTruthy x then pure x else b

/-- Python `d[k]` on a JSON value: key lookup on a dict, and a `KeyError`
or `TypeError` (modelled as `Except.error`) otherwise. -/
def jIndex (j : Json) (k : String) : Except Unit Json :=
  match j with
  | Json.obj kvs =>
      match kvs.find? (fun p => p.1 = k) with
      | some p => Except.ok p.2
      | none => Except.error ()
  | _ => Except.error ()

/-- Python `d.get(k, dflt)`: succeeds on a dict, raises (`AttributeError`)
on anything else. -/
def pyGetD (j : Json) (k : String) (dflt : Json) : Except Unit Json :=
  match j with
  | Json.obj kvs =>
      match kvs.find? (fun p => p.1 = k) with
      | some p => Except.ok p.2
      | none => Except.ok dflt
  | _ => Except.error ()

/-- Total variant of `pyGetD` for values already known to be dicts. -/
def pyGetDTot (j : Json) (k : String) (dflt : Json) : Json :=
  match j with
  | Json.obj kvs =>
      match kvs.find? (fun p => p.1 = k) with
      | some p => p.2
      | none => dflt
  | _ => dflt

/-- Whether the character list `n` is a leading segment of `h`. -/
def charsLead : List Char → List Char → Bool
  | [], _ => true
  | _ :: _, [] => false
  | a :: as, b :: bs => a == b && charsLead as bs

/-- Whether the character list `n` occurs contiguously inside `h`. -/
def charsSub (n : List Char) : List Char → Bool
  | [] => n.isEmpty
  | b :: bs => charsLead n (b :: bs) || charsSub n bs

/-- Python substring test `needle in hay` for strings. -/
def strSub (needle hay : String) : Bool := charsSub needle.toList hay.toList

/-- Left-to-right replacement of every non-overlapping occurrence of
`needle`, fuelled by the input length so that it reduces by iota. -/
def replaceFuel (needle repl : List Char) : Nat → List Char → List Char
  | _, [] => []
  | 0, s => s
  | fuel + 1, c :: cs =>
      if needle.isEmpty then c :: cs
      else if charsLead needle (c :: cs) then
        repl ++ replaceFuel needle repl fuel ((c :: cs).drop needle.length)
      else c :: replaceFuel needle repl fuel cs

/-- Python `s.replace(needle, repl)` (for the non-empty needles the
source uses). -/
def pyReplace (s needle repl : String) : String :=
  String.mk (replaceFuel needle.toList repl.toList s.toList.length s.toList)

/-- Python `k in j`: key membership for dicts, element membership for
lists, substring test for strings, and a `TypeError` otherwise. -/
def pyInE (k : String) (j : Json) : Except Unit Bool :=
  match j with
  | Json.obj kvs => Except.ok (kvs.any (fun p => p.1 = k))
  | Json.arr xs => Except.ok (xs.any (fun x => x == Json.str k))
  | Json.str s => Except.ok (strSub k s)
  | _ => Except.error ()

/-- Python iteration over a JSON value (`for x in j`): lists yield their
elements, strings their characters, dicts their keys; other values raise. -/
def pyIterList : Json → Except Unit (List Json)
  | Json.arr xs => Except.ok xs
  | Json.str s => Except.ok (s.toList.map (fun c => Json.str (String.singleton c)))
  | Json.obj kvs => Except.ok (kvs.map (fun p => Json.str p.1))
  | _ => Except.error ()

/-- The value must be a Python `str` (used where the source calls a
string method such as `.capitalize()` or `.replace()`). -/
def asStrE : Json → Except Unit String
  | Json.str s => Except.ok s
  | _ => Except.error ()

/-- An apostrophe character, written by code point. -/
def sqc : String := (Char.ofNat 39).toString

mutual
/-- Python `repr` of a JSON value (rendering used inside containers). -/
def pyRepr : Json → String
  | Json.null => "None"
  | Json.bool true => "True"
  | Json.bool false => "False"
  | Json.num n => toString n
  | Json.str s => sqc ++ s ++ sqc
  | Json.arr xs => "[" ++ pyReprList xs ++ "]"
  | Json.obj kvs => "\x7b" ++ pyReprObj kvs ++ "\x7d"

/-- Comma-separated `repr`s of list elements. -/
def pyReprList : List Json → String
  | [] => ""
  | [x] => pyRepr x
  | x :: y :: xs => pyRepr x ++ ", " ++ pyReprList (y :: xs)

/-- Comma-separated `repr`s of dict entries. -/
def pyReprObj : List (String × Json) → String
  | [] => ""
  | [(k, v)] => sqc ++ k ++ sqc ++ ": " ++ pyRepr v
  | (k, v) :: p :: kvs => sqc ++ k ++ sqc ++ ": " ++ pyRepr v ++ ", " ++ pyReprObj (p :: kvs)
end

/-- Python `str()` of a JSON value (as used by f-string interpolation). -/
def pyStr : Json → String
  | Json.null => "None"
  | Json.bool true => "True"
  | Json.bool false => "False"
  | Json.num n => toString n
  | Json.str s => s
  | Json.arr xs => "[" ++ pyReprList xs ++ "]"
  | Json.obj kvs => "\x7b" ++ pyReprObj kvs ++ "\x7d"

/-- Python `str.capitalize()`: first character upper-cased, the rest
lower-cased. -/
def pyCapitalize (s : String) : String :=
  match s.toList with
  | [] => ""
  | c :: cs => String.mk (c.toUpper :: cs.map Char.toLower)

/-- Python `str.lower()`. -/
def pyLower (s : String) : String := String.mk (s.toList.map Char.toLower)

/-- A parsed timestamp, the result of `datetime.fromisoformat`. -/
structure PyDateTime where
  year : Nat
  month : Nat
  day : Nat
  hour : Nat
  minute : Nat
  second : Nat
deriving DecidableEq, Repr

/-- Zero-padding to width `w`, as `strftime` does for numeric fields. -/
def padNum (w : Nat) (n : Nat) : String :=
  let s := toString n
  String.mk (List.replicate (w - s.length) '0') ++ s

/-- The source's `strftime("%Y-%m-%d %H:%M:%S")`. -/
def strftimeYmdHms (dt : PyDateTime) : String :=
  padNum 4 dt.year ++ "-" ++ padNum 2 dt.month ++ "-" ++ padNum 2 dt.day ++ " " ++
    padNum 2 dt.hour ++ ":" ++ padNum 2 dt.minute ++ ":" ++ padNum 2 dt.second

theorem strftimeYmdHms_ne_empty (dt : PyDateTime) : strftimeYmdHms dt ≠ "" := by
  intro h
  have hlen := congrArg String.length h
  simp only [strftimeYmdHms, String.length_append] at hlen
  have h1 : ("-" : String).length = 1 := rfl
  have h2 : (" " : String).length = 1 := rfl
  have h3 : (":" : String).length = 1 := rfl
  have h0 : ("" : String).length = 0 := rfl
  omega

/-- Whether a JSON value is a dict (`isinstance(x, dict)`). -/
def Json.isObj : Json → Bool
  | Json.obj _ => true
  | _ => false

/-- Whether a JSON value is a list (`isinstance(x, list)`). -/
def Json.isArr : Json → Bool
  | Json.arr _ => true
  | _ => false

/-- Whether a JSON value is a string (`isinstance(x, str)`). -/
def Json.isStr : Json → Bool
  | Json.str _ => true
  | _ => false

/-- Environment of `process_webhook_data` (sheets.py): the ambient clock
(`datetime.now`, `time.time`), the external ISO-8601 parser
(`datetime.fromisoformat`, `none` modelling a `ValueError`), and the
summarizer collaborator guarded by `OPENAI_API_KEY`. -/
structure NormEnv where
  nowIso : String
  now : PyDateTime
  epoch : Nat
  parseIso : String → Option PyDateTime
  openaiKey : Bool
  summarize : Json → String

/-- The `journal_info` dict as built by one shape branch of
`process_webhook_data`, before the common post-processing steps. -/
structure PreEntry where
  id : Json
  created_at : Json
  duration : Json
  conversation : Json
  user : Option Json := none
  agent_id : Option Json := none
  called_number : Option Json := none
  status : Option Json := none

/-- The finished `journal_info` dict (the canonical `JournalEntry`). -/
structure JournalEntry where
  id : Json
  created_at : Json
  duration : Json
  conversation : Json
  user : Option Json
  agent_id : Option Json
  called_number : Option Json
  status : Option Json
  date : String
  history_item_id : Json
  text : Json
  major_events : Option Json
  mood : Option Json
  insights : Option Json
  action_items : Option Json
  summary : String

/-- The message-list rendering loop of sheets.py lines 521-524 (and
581-587, 630-636): speaker from `role`, content from `content`. -/
def renderRoleContent : List Json → String → Except Unit String
  | [], acc => Except.ok acc
  | m :: ms, acc => do
      let roleJ ← pyGetD m "role" (Json.str "unknown")
      let role ← asStrE roleJ
      let content ← pyGetD m "content" (Json.str "")
      renderRoleContent ms (acc ++ pyCapitalize role ++ ": " ++ pyStr content ++ "\n")

/-- The transcript-array rendering loop of sheets.py lines 558-561:
speaker from `speaker`, content from `text`. -/
def renderSpeakerText : List Json → String → Except Unit String
  | [], acc => Except.ok acc
  | e :: es, acc => do
      let spJ ← pyGetD e "speaker" (Json.str "unknown")
      let sp ← asStrE spJ
      let t ← pyGetD e "text" (Json.str "")
      renderSpeakerText es (acc ++ pyCapitalize sp ++ ": " ++ pyStr t ++ "\n")

/-- The fallback-branch list rendering loop of sheets.py lines 639-645:
like `renderSpeakerText` but silently skipping non-dict items. -/
def renderFallbackList : List Json → String → Except Unit String
  | [], acc => Except.ok acc
  | item :: its, acc =>
      match item with
      | Json.obj kvs => do
          let spJ ← pyGetD (Json.obj kvs) "speaker" (Json.str "unknown")
          let sp ← asStrE spJ
          let t ← pyGetD (Json.obj kvs) "text" (Json.str "")
          renderFallbackList its (acc ++ pyCapitalize sp ++ ": " ++ pyStr t ++ "\n")
      | _ => renderFallbackList its acc

/-- Completion-event detection, sheets.py lines 454-457. -/
def isCompletionE (wd : Json) : Except Unit Bool := do
  if (← pyInE "event" wd) then
    let ev ← pyGetD wd "event" (Json.str "")
    let s ← asStrE ev
    let et := pyLower s
    pure (strSub "complete" et || strSub "end" et || strSub "disconnect" et)
  else
    pure false

/-- Data-collection side-channel extraction, sheets.py lines 468-490;
returns `(major_events, mood, insights, action_items)` with `Json.null`
modelling Python `None`. -/
def collectedE (wd : Json) : Except Unit (Json × Json × Json × Json) := do
  let b1 ← pyInE "data_collection" wd
  let cd ←
    if b1 then jIndex wd "data_collection"
    else do
      let b2 ← pyInE "collected_data" wd
      if b2 then jIndex wd "collected_data"
      else do
        let b3 ← pyInE "analysis" wd
        if b3 then do
          let a ← pyGetD wd "analysis" (Json.obj [])
          pyGetD a "data_collection" (Json.obj [])
        else pure (Json.obj [])
  if pyTruthy cd then do
    let me ← pyGetD cd "major_events" Json.null
    let mo ← pyGetD cd "mood" Json.null
    let ins ← pyGetD cd "insights" Json.null
    let ai ← pyGetD cd "action_items" Json.null
    pure (me, mo, ins, ai)
  else
    pure (Json.null, Json.null, Json.null, Json.null)

/-- Shape-1 test: `"call_id" in wd and "transcript" in wd` (line 505). -/
def condF1 (wd : Json) : Except Unit Bool := do
  if (← pyInE "call_id" wd) then pyInE "transcript" wd else pure false

/-- Shape-2 test: `"id" in wd and "conversation" in wd and
isinstance(wd["conversation"], dict)` (line 516). -/
def condF2 (wd : Json) : Except Unit Bool := do
  if (← pyInE "id" wd) then
    if (← pyInE "conversation" wd) then do
      let c ← jIndex wd "conversation"
      pure c.isObj
    else pure false
  else pure false

/-- Shape-3 test: `"call_sid" in wd and "call_data" in wd` (line 538). -/
def condF3 (wd : Json) : Except Unit Bool := do
  if (← pyInE "call_sid" wd) then pyInE "call_data" wd else pure false

/-- Shape-4 test: `"history_item_id" in wd and "transcript" in wd and
isinstance(wd["transcript"], list)` (line 553). -/
def condF4 (wd : Json) : Except Unit Bool := do
  if (← pyInE "history_item_id" wd) then
    if (← pyInE "transcript" wd) then do
      let t ← jIndex wd "transcript"
      pure t.isArr
    else pure false
  else pure false

/-- Shape-5 test: `"event" in wd and is_completion` (line 576). -/
def condF5 (wd : Json) (isC : Bool) : Except Unit Bool := do
  if (← pyInE "event" wd) then pure isC else pure false

/-- Shape 1 (simple format), sheets.py lines 506-513. -/
def branchF1 (env : NormEnv) (wd : Json) : Except Unit PreEntry := do
  let idv ← pyGetD wd "call_id" Json.null
  let ca ← pyOrM (pyGetD wd "timestamp" Json.null) (pure (Json.str env.nowIso))
  let dur ← pyOrM (pyGetD wd "duration" Json.null) (pure (Json.num 0))
  let conv ← pyOrM (pyGetD wd "transcript" Json.null) (pure (Json.str ""))
  let usr ← pyGetD wd "caller" (Json.str "Me")
  let ag ← pyGetD wd "agent_id" (Json.str "Journal Assistant")
  pure { id := idv, created_at := ca, duration := dur, conversation := conv,
         user := some usr, agent_id := some ag }

/-- Shape 2 (conversation format), sheets.py lines 517-535. -/
def branchF2 (env : NormEnv) (wd : Json) : Except Unit PreEntry := do
  let convObj ← pyGetD wd "conversation" (Json.obj [])
  let msgsJ ← pyGetD convObj "messages" (Json.arr [])
  let msgs ← pyIterList msgsJ
  let t ← renderRoleContent msgs ""
  let md ← pyGetD wd "metadata" (Json.obj [])
  let idv ← pyGetD wd "id" Json.null
  let ca ← pyOrM (pyGetD wd "created_at" Json.null) (pure (Json.str env.nowIso))
  let dur ← pyGetD md "call_duration" (Json.num 0)
  let usr ← pyGetD md "caller_id" (Json.str "Me")
  let cn ← pyGetD md "called_number" (Json.str "Journal Service")
  pure { id := idv, created_at := ca, duration := dur,
         conversation := Json.str t.trim, user := some usr, called_number := some cn }

/-- Shape 3 (Twilio-style format), sheets.py lines 539-550. -/
def branchF3 (env : NormEnv) (wd : Json) : Except Unit PreEntry := do
  let cdo ← pyGetD wd "call_data" (Json.obj [])
  let idv ← pyGetD wd "call_sid" Json.null
  let ca ← pyOrM (pyGetD wd "timestamp" Json.null) (pure (Json.str env.nowIso))
  let dur ← pyGetD cdo "duration" (Json.num 0)
  let conv ← pyGetD cdo "transcript" (Json.str "")
  let usr ← pyGetD wd "caller_id" (Json.str "Me")
  let cn ← pyGetD wd "called_number" (Json.str "Journal Service")
  let ag ← pyGetD wd "agent_id" (Json.str "Journal Assistant")
  let st ← pyGetD cdo "status" (Json.str "Completed")
  pure { id := idv, created_at := ca, duration := dur, conversation := conv,
         user := some usr, called_number := some cn, agent_id := some ag,
         status := some st }

/-- Shape 4 (history format), sheets.py lines 554-573. -/
def branchF4 (env : NormEnv) (wd : Json) : Except Unit PreEntry := do
  let ta ← pyGetD wd "transcript" (Json.arr [])
  let lst ← pyIterList ta
  let t ← renderSpeakerText lst ""
  let cdet ← pyGetD wd "call_details" (Json.obj [])
  let idv ← pyGetD wd "history_item_id" Json.null
  let ca ← pyOrM (pyGetD wd "date" Json.null) (pure (Json.str env.nowIso))
  let dur ← pyGetD wd "character_count_change_from" (Json.num 0)
  let conv ← pyOrM (pure (Json.str t.trim)) (pyGetD wd "text" (Json.str ""))
  let usr ← pyGetD cdet "caller" (Json.str "Me")
  let cn ← pyGetD cdet "recipient" (Json.str "Journal Service")
  let st ← pyGetD cdet "status" (Json.str "Completed")
  pure { id := idv, created_at := ca, duration := dur, conversation := conv,
         user := some usr, called_number := some cn, status := some st }

/-- Messages-wrapper re-rendering used by shape 5 and the fallback
(sheets.py lines 581-588 and 630-637). -/
def renderIfMessagesDict (t0 : Json) : Except Unit Json :=
  match t0 with
  | Json.obj kvs => do
      let hasMsgs ← pyInE "messages" (Json.obj kvs)
      if hasMsgs then do
        let msgsJ ← pyGetD (Json.obj kvs) "messages" (Json.arr [])
        let msgs ← pyIterList msgsJ
        let txt ← renderRoleContent msgs ""
        pure (Json.str txt.trim)
      else pure t0
  | _ => pure t0

/-- Shape 5 (completion webhook), sheets.py lines 577-598. -/
def branchF5 (env : NormEnv) (wd : Json) : Except Unit PreEntry := do
  let cdo ← pyOrM (pyOrM (pyGetD wd "call" (Json.obj [])) (pyGetD wd "data" (Json.obj [])))
      (pure (Json.obj []))
  let t0 ← pyOrM (pyGetD wd "transcript" (Json.str "")) (pyGetD cdo "transcript" (Json.str ""))
  let t ← renderIfMessagesDict t0
  let idv ← pyOrM (pyOrM (pyGetD cdo "id" Json.null) (pyGetD wd "call_id" Json.null))
      (pure (Json.str ("journal-" ++ toString env.epoch)))
  let ca ← pyOrM (pyOrM (pyGetD cdo "created_at" Json.null) (pyGetD wd "timestamp" Json.null))
      (pure (Json.str env.nowIso))
  let dur ← pyOrM (pyOrM (pyGetD cdo "duration" Json.null) (pyGetD wd "duration" Json.null))
      (pure (Json.num 0))
  let usr ← pyOrM (pyOrM (pyGetD cdo "caller_id" Json.null) (pyGetD wd "caller" Json.null))
      (pure (Json.str "Me"))
  let cn ← pyOrM (pyOrM (pyGetD cdo "called_number" Json.null) (pyGetD wd "called" Json.null))
      (pure (Json.str "Journal Service"))
  pure { id := idv, created_at := ca, duration := dur, conversation := t,
         user := some usr, called_number := some cn,
         status := some (Json.str "completed") }

/-- Fallback branch, sheets.py lines 601-652. -/
def branchFallback (env : NormEnv) (wd : Json) : Except Unit PreEntry := do
  let idv ← pyOrM (pyOrM (pyOrM (pyOrM (pyGetD wd "call_id" Json.null)
      (pyGetD wd "id" Json.null)) (pyGetD wd "call_sid" Json.null))
      (pyGetD wd "history_item_id" Json.null))
      (pure (Json.str ("journal-" ++ toString env.epoch)))
  let ca ← pyOrM (pyOrM (pyOrM (pyGetD wd "timestamp" Json.null)
      (pyGetD wd "created_at" Json.null)) (pyGetD wd "date" Json.null))
      (pure (Json.str env.nowIso))
  let conv0 ← pyOrM (pyOrM (pyOrM (pyGetD wd "transcript" Json.null)
      (pyGetD wd "text" Json.null)) (pyGetD wd "conversation" Json.null))
      (pure (Json.str ""))
  let conv ←
    match conv0 with
    | Json.arr items => do
        let txt ← renderFallbackList items ""
        pure (Json.str txt.trim)
    | _ => renderIfMessagesDict conv0
  let dur ← pyGetD wd "duration" (Json.num 0)
  pure { id := idv, created_at := ca, duration := dur, conversation := conv }

/-- The ordered shape dispatch of `process_webhook_data`
(sheets.py lines 505-652). -/
def dispatchE (env : NormEnv) (wd : Json) (isC : Bool) : Except Unit PreEntry := do
  if (← condF1 wd) then branchF1 env wd
  else if (← condF2 wd) then branchF2 env wd
  else if (← condF3 wd) then branchF3 env wd
  else if (← condF4 wd) then branchF4 env wd
  else if (← condF5 wd isC) then branchF5 env wd
  else branchFallback env wd

/-- Date formatting of sheets.py lines 655-664: ISO-parse the chosen
timestamp (with `Z` replaced by `+00:00`), falling back to the current
time on a non-string value or a parse failure. -/
def formatEntryDate (env : NormEnv) (ca : Json) : String :=
  match ca with
  | Json.str s =>
      match env.parseIso (pyReplace s "Z" "+00:00") with
      | some dt => strftimeYmdHms dt
      | none => strftimeYmdHms env.now
  | _ => strftimeYmdHms env.now

/-- Common post-processing of `process_webhook_data`
(sheets.py lines 655-688): date formatting, the `history_item_id` and
`text` aliases, data-collection overrides, and the summary policy. -/
def finalizeEntry (env : NormEnv) (ji : PreEntry) (cd : Json × Json × Json × Json) :
    JournalEntry :=
  { id := ji.id, created_at := ji.created_at, duration := ji.duration,
    conversation := ji.conversation, user := ji.user, agent_id := ji.agent_id,
    called_number := ji.called_number, status := ji.status,
    date := formatEntryDate env ji.created_at,
    history_item_id := ji.id,
    text := ji.conversation,
    major_events := if pyTruthy cd.1 then some cd.1 else none,
    mood := if pyTruthy cd.2.1 then some cd.2.1 else none,
    insights := if pyTruthy cd.2.2.1 then some cd.2.2.1 else none,
    action_items := if pyTruthy cd.2.2.2 then some cd.2.2.2 else none,
    summary := if pyTruthy ji.conversation && env.openaiKey then
        env.summarize ji.conversation
      else "No summary available" }

/-- The normalization core of `process_webhook_data` (sheets.py lines
453-690), from a decoded webhook payload to the canonical entry.
`Except.error ()` models an exception reaching the enclosing handler at
line 707, in which case no entry is produced. -/
def process_webhook_data (env : NormEnv) (wd : Json) : Except Unit JournalEntry := do
  let isC ← isCompletionE wd
  let cd ← collectedE wd
  let ji ← dispatchE env wd isC
  pure (finalizeEntry env ji cd)

/-- The rendering loop of `extract_conversation_text`
(perplexity_summarize.py lines 61-64): speaker from `role` (defaulting
to the empty string), content from `message`. -/
def extractConvLoop : List Json → String → Except Unit String
  | [], acc => Except.ok acc
  | m :: ms, acc => do
      let r ← asStrE (← pyGetD m "role" (Json.str ""))
      let c ← pyGetD m "message" (Json.str "")
      extractConvLoop ms (acc ++ pyCapitalize r ++ ": " ++ pyStr c ++ "\n")

/-- `extract_conversation_text` (perplexity_summarize.py lines 53-66). -/
def extract_conversation_text (cd : Json) : Except Unit String := do
  if !pyTruthy cd then pure "No transcript found in conversation data."
  else do
    let hasT ← pyInE "transcript" cd
    if !hasT then pure "No transcript found in conversation data."
    else do
      let t ← pyGetD cd "transcript" (Json.arr [])
      let msgs ← pyIterList t
      extractConvLoop msgs ""

/-- The header row appended by `save_to_sheets` (sheets.py line 326). -/
def sheetHeader : List String :=
  ["Date", "Call ID", "Duration (sec)", "Summary", "Text", "Major Events",
   "Call Summary", "Action Items", "Customer Sentiment"]

/-- Key extraction of `get_existing_entries` (sheets.py line 271): one
composite key per non-empty row; a row of length one raises `IndexError`. -/
def rowKeysE : List (List String) → Except Unit (List String)
  | [] => Except.ok []
  | r :: rs =>
      match r with
      | [] => rowKeysE rs
      | [_] => Except.error ()
      | a :: b :: _ => do
          let rest ← rowKeysE rs
          pure ((a ++ ":" ++ b) :: rest)

/-- Header-skipping of `get_existing_entries` (sheets.py lines 266-268),
including the `IndexError` paths of the short-circuiting test
`all_values[0][0] == "Date" and all_values[0][1] == "Summary"`. -/
def headerDropE : List (List String) → Except Unit (List (List String))
  | [] => Except.ok []
  | r :: rs =>
      match r with
      | [] => Except.error ()
      | a :: rest =>
          if a = "Date" then
            match rest with
            | [] => Except.error ()
            | b :: _ => if b = "Summary" then Except.ok rs else Except.ok (r :: rs)
          else Except.ok (r :: rs)

/-- `get_existing_entries` (sheets.py lines 259-274): the existing-key
set read back from the sheet; any exception yields the empty set. -/
def get_existing_entries (rows : List (List String)) : List String :=
  match (do rowKeysE (← headerDropE rows) : Except Unit (List String)) with
  | Except.ok ks => ks
  | Except.error _ => []

/-- Rendering of a JSON value written to a sheet cell and read back as a
string by `get_all_values` (Python `None` becomes an empty cell). -/
def sheetCell : Json → String
  | Json.null => ""
  | Json.bool true => "TRUE"
  | Json.bool false => "FALSE"
  | j => pyStr j

/-- Python slicing `x[:1000]` (sheets.py line 354): works on strings and
lists, raises `TypeError` on anything else. -/
def pySlice1000 : Json → Except Unit Json
  | Json.str s => Except.ok (Json.str (String.mk (s.toList.take 1000)))
  | Json.arr xs => Except.ok (Json.arr (xs.take 1000))
  | _ => Except.error ()

/-- Per-entry processing of the `save_to_sheets` loop body
(sheets.py lines 335-359): the composite dedup key
`f"{formatted_date}:{call_id}"` and the row to append; `Except.error ()`
models an exception caught by the inner handler at line 368. -/
def processCall (parseIso : String → Option PyDateTime) (call : Json) :
    Except Unit (String × List String) := do
  let dJ ← jIndex call "date"
  let s ← asStrE dJ
  let dt ←
    match parseIso (pyReplace s "Z" "+00:00") with
    | some dt => Except.ok dt
    | none => Except.error ()
  let fd := strftimeYmdHms dt
  let cid ← pyGetD call "history_item_id" (Json.str "N/A")
  let key := fd ++ ":" ++ pyStr cid
  let dur ← pyGetD call "character_count_change_from" (Json.num 0)
  let summ ← pyGetD call "summary" (Json.str "No summary available")
  let txt ← pyGetD call "text" (Json.str "")
  let txt1000 ← pySlice1000 txt
  let me ← pyGetD call "major_events" (Json.str "")
  let cs ← pyGetD call "call_summary" (Json.str "")
  let ai ← pyGetD call "action_items" (Json.str "")
  let sent ← pyGetD call "customer_sentiment" (Json.str "")
  pure (key, [fd, sheetCell cid, sheetCell dur, sheetCell summ, sheetCell txt1000,
              sheetCell me, sheetCell cs, sheetCell ai, sheetCell sent])

/-- The entry loop of `save_to_sheets` (sheets.py lines 333-369): the
existing-key set is fixed before the loop and not updated inside it;
failing entries are skipped; skips do not count. -/
def sheetsLoop (parseIso : String → Option PyDateTime) :
    List Json → List String → Nat → List (List String) → Nat × List (List String)
  | [], _, n, sh => (n, sh)
  | c :: cs, ex, n, sh =>
      match processCall parseIso c with
      | Except.error _ => sheetsLoop parseIso cs ex n sh
      | Except.ok (k, row) =>
          if k ∈ ex then sheetsLoop parseIso cs ex n sh
          else sheetsLoop parseIso cs ex (n + 1) (sh ++ [row])

/-- The fallback flat file `journal_entries.csv`, modelled as the record
dicts a `csv.DictReader` would produce, plus the existence flag. -/
structure CsvFile where
  fileExists : Bool
  rows : List (List (String × String))

/-- Identifier scan of `save_to_csv` (sheets.py lines 386-397): per
record, the `Call ID` field if the record has one, else the `ID` field. -/
def existingIds : List (List (String × String)) → List String
  | [] => []
  | r :: rs =>
      match r.find? (fun p => p.1 = "Call ID") with
      | some p => p.2 :: existingIds rs
      | none =>
          match r.find? (fun p => p.1 = "ID") with
          | some p => p.2 :: existingIds rs
          | none => existingIds rs

/-- Membership of a Python value in a set of strings (only a `str` can
equal a stored string). -/
def jsonMemStr (j : Json) (ids : List String) : Bool :=
  match j with
  | Json.str s => ids.contains s
  | _ => false

/-- Rendering of a value written by `csv.DictWriter` (Python `None` is
written as an empty field). -/
def csvCell : Json → String
  | Json.null => ""
  | j => pyStr j

/-- The item id used by `save_to_csv`:
`item.get('id') or item.get('history_item_id')` (sheets.py line 414). -/
def csvItemId (item : Json) : Except Unit Json :=
  pyOrM (pyGetD item "id" Json.null) (pyGetD item "history_item_id" Json.null)

/-- One row written by `save_to_csv` (sheets.py lines 422-432). -/
def csvRowOf (item : Json) (itemId : Json) : Except Unit (List (String × String)) := do
  let d ← pyGetD item "date" Json.null
  let dur ← pyOrM (pyOrM (pyGetD item "duration" Json.null)
      (pyGetD item "call_duration" Json.null)) (pure (Json.num 0))
  let summ ← pyGetD item "summary" (Json.str "No summary available")
  let txt ← pyOrM (pyGetD item "conversation" Json.null) (pyGetD item "text" (Json.str ""))
  let me ← pyGetD item "major_events" (Json.str "")
  let mo ← pyGetD item "mood" (Json.str "")
  let ins ← pyGetD item "insights" (Json.str "")
  let ai ← pyGetD item "action_items" (Json.str "")
  pure [("Date", csvCell d), ("ID", csvCell itemId), ("Duration (sec)", csvCell dur),
        ("Summary", csvCell summ), ("Text", csvCell txt), ("Major Events", csvCell me),
        ("Mood", csvCell mo), ("Insights", csvCell ins), ("Action Items", csvCell ai)]

/-- The item loop of `save_to_csv` (sheets.py lines 413-437); unlike the
primary-store loop it has no per-item exception handler, so a failing
item aborts the whole call. -/
def csvLoop : List Json → List String → Nat → List (List (String × String)) →
    Except Unit (Nat × List (List (String × String)))
  | [], _, n, acc => Except.ok (n, acc)
  | it :: its, ex, n, acc => do
      let itemId ← csvItemId it
      if jsonMemStr itemId ex then csvLoop its ex n acc
      else do
        let row ← csvRowOf it itemId
        csvLoop its ex (n + 1) (acc ++ [row])

/-- `save_to_csv` (sheets.py lines 378-440): existing-id scan, then
append of the non-duplicate rows; returns the count of rows written. -/
def save_to_csv (items : List Json) (c : CsvFile) : Except Unit (Nat × CsvFile) := do
  let ex := if c.fileExists then existingIds c.rows else []
  let (n, newRows) ← csvLoop items ex 0 []
  pure (n, { fileExists := true, rows := c.rows ++ newRows })

/-- Environment of `save_to_sheets`: whether credential acquisition,
authorization and spreadsheet opening succeed, and the external ISO
parser used on each entry's `date` field. -/
structure PersistEnv where
  acquireOk : Bool
  parseIso : String → Option PyDateTime

/-- `save_to_sheets` (sheets.py lines 304-376): primary-store path with
header creation, existing-key rebuild and per-entry dedup; on any failure
to acquire the primary store, full redirect of the batch to
`save_to_csv`.  Returns the count of rows written together with the new
primary-store and fallback-store states. -/
def save_to_sheets (env : PersistEnv) (calls : List Json)
    (sheet : List (List String)) (c : CsvFile) :
    Except Unit (Nat × List (List String) × CsvFile) :=
  if env.acquireOk then
    let sh1 := if sheet.isEmpty then [sheetHeader] else sheet
    let ex := get_existing_entries sh1
    let (n, sh2) := sheetsLoop env.parseIso calls ex 0 sh1
    Except.ok (n, sh2, c)
  else
    (save_to_csv calls c).map (fun p => (p.1, sheet, p.2))

/-- The declared type of a candidate bulk-history endpoint. -/
inductive EpKind where
  | standard
  | call_logs
  | calls
  | agent_calls
deriving DecidableEq, Repr

/-- The ordered candidate endpoints of `get_call_history`
(sheets.py lines 105-110). -/
def endpointsList : List (String × EpKind) :=
  [("https://api.elevenlabs.io/v1/history", EpKind.standard),
   ("https://api.elevenlabs.io/v1/call-logs", EpKind.call_logs),
   ("https://api.elevenlabs.io/v1/calls", EpKind.calls),
   ("https://api.elevenlabs.io/v1/agent/calls", EpKind.agent_calls)]

/-- An HTTP response: status code, optional numeric `Retry-After`
header, and the decoded JSON body. -/
structure HttpResp where
  status : Nat
  retryAfter : Option Nat
  body : Json

/-- Result of one `requests.get` call: a response, or a transport-level
failure (timeout, connection error) raising a `RequestException`. -/
inductive NetResult where
  | ok (r : HttpResp) : NetResult
  | transportErr : NetResult

/-- The network oracle: the result of the `i`-th `requests.get` issued
by the engine, in issue order. -/
structure Net where
  resp : Nat → NetResult

/-- Observable actions of the engine: an HTTP request to a URL with a
page number, or a `time.sleep` of a number of seconds. -/
inductive Ev where
  | req (url : String) (page : Nat) : Ev
  | sleep (secs : Nat) : Ev
deriving DecidableEq, Repr

/-- The response key associated with an endpoint type
(sheets.py lines 158-165). -/
def keyOf : EpKind → String
  | EpKind.standard => "history"
  | EpKind.call_logs => "call_logs"
  | EpKind.calls => "calls"
  | EpKind.agent_calls => "calls"

/-- Item extraction from a page body (sheets.py lines 157-167): the
type-specific key first, then the generic `items` key, else the empty
list. -/
def itemsOfE (k : EpKind) (data : Json) : Except Unit Json := do
  if (← pyInE (keyOf k) data) then jIndex data (keyOf k)
  else if (← pyInE "items" data) then jIndex data "items"
  else pure (Json.arr [])

/-- More-pages detection (sheets.py lines 179-183): an explicit
`has_more` flag (truthiness) or a non-null `next` pointer. -/
def hasMoreE (data : Json) : Except Unit Bool := do
  if (← pyInE "has_more" data) then
    pure (pyTruthy (← jIndex data "has_more"))
  else if (← pyInE "next" data) then
    pure (!((← jIndex data "next") == Json.null))
  else pure false

/-- How the retry loop `for attempt in range(max_retries)` of
`get_call_history` (sheets.py lines 123-199) was exited. -/
inductive AOut where
  | notFound
  | noItems
  | pageDone (items : List Json)
  | pageNext (items : List Json)
  | exhausted
  | fellThrough
  | exc

/-- Result of the retry loop: outcome, final value of `attempt`, next
request index, last bound `response` status, and the events (requests
and sleeps) produced by the loop, in order. -/
structure ARet where
  out : AOut
  attempt : Nat
  idx : Nat
  lastSt : Option Nat
  evs : List Ev

/-- The retry loop body of `get_call_history` (sheets.py lines 123-199):
up to `rem` further iterations of `for attempt in range(3)`.  A 404
breaks to the next endpoint; a 429 sleeps for `Retry-After` (default 60)
and continues, consuming the attempt; any other HTTP error status
(`raise_for_status`, whose `HTTPError` is a `RequestException`) and any
transport failure take the backoff path (sleep `2 ** attempt`),
abandoning the page after the third attempt; a success extracts the
items and the more-pages flag. -/
def attemptLoop (net : Net) (url : String) (k : EpKind) (page : Nat) :
    Nat → Nat → Nat → Option Nat → ARet
  | 0, attempt, i, lastSt =>
      { out := AOut.fellThrough, attempt := attempt - 1, idx := i, lastSt := lastSt, evs := [] }
  | rem + 1, attempt, i, lastSt =>
      match net.resp i with
      | NetResult.transportErr =>
          if attempt < 2 then
            let a := attemptLoop net url k page rem (attempt + 1) (i + 1) lastSt
            { a with evs := [Ev.req url page, Ev.sleep (2 ^ attempt)] ++ a.evs }
          else
            { out := AOut.exhausted, attempt := attempt, idx := i + 1, lastSt := lastSt,
              evs := [Ev.req url page] }
      | NetResult.ok r =>
          if r.status = 404 then
            { out := AOut.notFound, attempt := attempt, idx := i + 1, lastSt := some r.status,
              evs := [Ev.req url page] }
          else if r.status = 429 then
            let a := attemptLoop net url k page rem (attempt + 1) (i + 1) (some r.status)
            { a with evs := [Ev.req url page, Ev.sleep (r.retryAfter.getD 60)] ++ a.evs }
          else if 400 ≤ r.status then
            if attempt < 2 then
              let a := attemptLoop net url k page rem (attempt + 1) (i + 1) (some r.status)
              { a with evs := [Ev.req url page, Ev.sleep (2 ^ attempt)] ++ a.evs }
            else
              { out := AOut.exhausted, attempt := attempt, idx := i + 1,
                lastSt := some r.status, evs := [Ev.req url page] }
          else
            match itemsOfE k r.body with
            | Except.error _ =>
                { out := AOut.exc, attempt := attempt, idx := i + 1, lastSt := some r.status,
                  evs := [Ev.req url page] }
            | Except.ok itemsJ =>
                if !pyTruthy itemsJ then
                  { out := AOut.noItems, attempt := attempt, idx := i + 1,
                    lastSt := some r.status, evs := [Ev.req url page] }
                else
                  match pyIterList itemsJ with
                  | Except.error _ =>
                      { out := AOut.exc, attempt := attempt, idx := i + 1,
                        lastSt := some r.status, evs := [Ev.req url page] }
                  | Except.ok items =>
                      match hasMoreE r.body with
                      | Except.error _ =>
                          { out := AOut.exc, attempt := attempt, idx := i + 1,
                            lastSt := some r.status, evs := [Ev.req url page] }
                      | Except.ok hm =>
                          if !hm then
                            { out := AOut.pageDone items, attempt := attempt, idx := i + 1,
                              lastSt := some r.status, evs := [Ev.req url page] }
                          else
                            { out := AOut.pageNext items, attempt := attempt, idx := i + 1,
                              lastSt := some r.status, evs := [Ev.req url page] }

/-- Result of the page loop for one endpoint: the collected
`endpoint_history` (`Except.error ()` when the outer handler at
sheets.py line 218 caught an exception), the next request index, the
last bound `response` status, and the events produced. -/
structure WRet where
  res : Except Unit (List Json)
  idx : Nat
  lastSt : Option Nat
  evs : List Ev

/-- The `while True` page loop of `get_call_history`
(sheets.py lines 122-210), fuelled.  After the retry loop, line 202
breaks out when the last attempt index was 2 and nothing was collected;
otherwise line 206 re-binds `has_more = False` before line 209 tests
`response.status_code == 404 or not has_more`, so the loop can only
continue when that test fails. -/
def whileLoop (net : Net) (url : String) (k : EpKind) :
    Nat → Nat → Nat → Option Nat → List Json → WRet
  | 0, _, i, lastSt, hist =>
      { res := Except.ok hist, idx := i, lastSt := lastSt, evs := [] }
  | fuel + 1, page, i, lastSt, hist =>
      let a := attemptLoop net url k page 3 0 i lastSt
      match a.out with
      | AOut.exc => { res := Except.error (), idx := a.idx, lastSt := a.lastSt, evs := a.evs }
      | _ =>
          let hist :=
            match a.out with
            | AOut.pageDone items => hist ++ items
            | AOut.pageNext items => hist ++ items
            | _ => hist
          let page :=
            match a.out with
            | AOut.pageNext _ => page + 1
            | _ => page
          if a.attempt = 2 ∧ hist.isEmpty then
            { res := Except.ok hist, idx := a.idx, lastSt := a.lastSt, evs := a.evs }
          else
            let hasMore := false
            match a.lastSt with
            | none => { res := Except.error (), idx := a.idx, lastSt := a.lastSt, evs := a.evs }
            | some st =>
                if st = 404 || !hasMore then
                  { res := Except.ok hist, idx := a.idx, lastSt := a.lastSt, evs := a.evs }
                else
                  let w := whileLoop net url k fuel page a.idx a.lastSt hist
                  { w with evs := a.evs ++ w.evs }

/-- Result of the endpoint loop: the overall history, the next request
index, and the events produced. -/
structure ERet where
  hist : List Json
  idx : Nat
  evs : List Ev

/-- The endpoint loop of `get_call_history` (sheets.py lines 113-219):
first endpoint whose page loop collects anything wins; an endpoint
whose processing raised, or collected nothing, is passed over. -/
def engineLoop (net : Net) : List (String × EpKind) → Nat → ERet
  | [], i => { hist := [], idx := i, evs := [] }
  | (url, k) :: rest, i =>
      let w := whileLoop net url k 4 1 i none []
      match w.res with
      | Except.error _ =>
          let e := engineLoop net rest w.idx
          { e with evs := w.evs ++ e.evs }
      | Except.ok h =>
          if h.isEmpty then
            let e := engineLoop net rest w.idx
            { e with evs := w.evs ++ e.evs }
          else { hist := h, idx := w.idx, evs := w.evs }

/-- `get_call_history` (sheets.py lines 100-221): the retrieved history
items and the observable request/sleep trace. -/
def get_call_history (net : Net) : List Json × List Ev :=
  let e := engineLoop net endpointsList 0
  (e.hist, e.evs)

/-- Destructuring of a successful `Except` bind. -/
theorem except_bind_ok {α β : Type} {x : Except Unit α} {f : α → Except Unit β} {b : β} :
    x >>= f = Except.ok b ↔ ∃ a, x = Except.ok a ∧ f a = Except.ok b := by
  cases x <;> simp [Bind.bind, Except.bind]

/-- A concrete normalization environment used to instantiate theorems. -/
def cEnvN : NormEnv :=
  { nowIso := "2024-05-06T07:08:09",
    now := ⟨2024, 5, 6, 7, 8, 9⟩,
    epoch := 1700000000,
    parseIso := fun _ => none,
    openaiKey := false,
    summarize := fun _ => "SUMMARY" }

/-- Dates produced by the normalizer are always `strftime` output. -/
theorem formatEntryDate_ne_empty (env : NormEnv) (ca : Json) : formatEntryDate env ca ≠ "" := by
  unfold formatEntryDate
  split
  · split
    · exact strftimeYmdHms_ne_empty _
    · exact strftimeYmdHms_ne_empty _
  · exact strftimeYmdHms_ne_empty _

/-- Any successful normalization result is a finalized entry. -/
theorem process_webhook_data_ok (env : NormEnv) (wd : Json) (e : JournalEntry)
    (h : process_webhook_data env wd = Except.ok e) :
    ∃ ji cd, e = finalizeEntry env ji cd := by
  unfold process_webhook_data at h
  obtain ⟨isC, h1, h⟩ := except_bind_ok.mp h
  obtain ⟨cd, h2, h⟩ := except_bind_ok.mp h
  obtain ⟨ji, h3, h⟩ := except_bind_ok.mp h
  refine ⟨ji, cd, ?_⟩
  simpa [pure, Except.pure, eq_comm] using h

/-- C1 (amended): whenever normalization completes, the produced entry
has a non-empty `date` (sheets.py lines 655-664 always set it from
`strftime`); as the counterexample shows, the `id` can be empty when the
matched shape's id field is present but empty, so non-emptiness of `id`
holds only for the synthesized fallback id, not in general. -/
theorem C1_date_nonempty (env : NormEnv) (wd : Json) (e : JournalEntry)
    (h : process_webhook_data env wd = Except.ok e) : e.date ≠ "" := by
  obtain ⟨ji, cd, he⟩ := process_webhook_data_ok env wd e h
  subst he
  exact formatEntryDate_ne_empty env ji.created_at

/-- Witness for C1: the empty payload normalizes successfully and its
date is non-empty. -/
theorem C1_date_nonempty_witness :
    ∃ e, process_webhook_data cEnvN (Json.obj []) = Except.ok e ∧ e.date ≠ "" := by
  obtain ⟨e, hE⟩ : ∃ e, process_webhook_data cEnvN (Json.obj []) = Except.ok e := ⟨_, rfl⟩
  exact ⟨e, hE, C1_date_nonempty cEnvN (Json.obj []) e hE⟩

/-- Counterexample to C1 as stated: the payload
`{"call_id": "", "transcript": "x"}` matches shape 1 and its empty
`call_id` is carried through verbatim, so the normalized entry's `id` is
the empty string (falsy), contradicting "id field is non-empty for every
input payload". -/
theorem C1_counterexample :
    (process_webhook_data cEnvN
        (Json.obj [("call_id", Json.str ""), ("transcript", Json.str "x")])).map
      (fun e => e.id) = Except.ok (Json.str "") ∧ pyTruthy (Json.str "") = false := ⟨rfl, rfl⟩

/-- C9: every successfully normalized entry satisfies
`history_item_id = id` and `text = conversation` (sheets.py lines
667-670 set both aliases unconditionally after shape dispatch). -/
theorem C9_alias_invariant (env : NormEnv) (wd : Json) (e : JournalEntry)
    (h : process_webhook_data env wd = Except.ok e) :
    e.history_item_id = e.id ∧ e.text = e.conversation := by
  obtain ⟨ji, cd, he⟩ := process_webhook_data_ok env wd e h
  subst he
  exact ⟨rfl, rfl⟩

/-- Witness for C9 on a concrete shape-1 payload. -/
theorem C9_alias_invariant_witness :
    ∃ e, process_webhook_data cEnvN
        (Json.obj [("call_id", Json.str "abc"), ("transcript", Json.str "hello")]) =
      Except.ok e ∧ e.history_item_id = e.id ∧ e.text = e.conversation := by
  obtain ⟨e, hE⟩ : ∃ e, process_webhook_data cEnvN
      (Json.obj [("call_id", Json.str "abc"), ("transcript", Json.str "hello")]) =
      Except.ok e := ⟨_, rfl⟩
  exact ⟨e, hE, C9_alias_invariant cEnvN _ e hE⟩

/-- Counterexample to C6 as stated: for the unrecognized payload
`{"foo":"bar"}` the fallback branch sets `conversation` to the empty
string (sheets.py lines 622-627: the scavenging chain ends in `""`), not
to the explanatory "no transcript" placeholder (that placeholder exists
only in `extract_conversation_text`). -/
theorem C6_counterexample :
    (process_webhook_data cEnvN (Json.obj [("foo", Json.str "bar")])).map
      (fun e => e.conversation) = Except.ok (Json.str "") ∧
    Json.str "" ≠ Json.str "No transcript found in conversation data." := by
  refine ⟨rfl, fun hc => ?_⟩
  exact absurd (Json.str.inj hc) (by decide)

/-- C6 (amended): for `{"foo":"bar"}` the normalizer takes the fallback
branch, synthesizes the id `journal-<epoch seconds>` (so the id is
prefixed `journal-`), and sets `conversation` to the empty string; the
"no transcript" placeholder string is produced by
`extract_conversation_text`, not by the fallback normalizer. -/
theorem C6_fallback_entry (env : NormEnv) :
    ∃ e, process_webhook_data env (Json.obj [("foo", Json.str "bar")]) = Except.ok e ∧
      e.id = Json.str ("journal-" ++ toString env.epoch) ∧
      e.conversation = Json.str "" := ⟨_, rfl, rfl, rfl⟩

/-- Rendering of one turn following the convention of the message-list
sites (speaker field `role`, default `"unknown"`; content field
`content`, default empty). -/
def lineRoleContent (m : Json) : Except Unit String := do
  let role ← asStrE (← pyGetD m "role" (Json.str "unknown"))
  let content ← pyGetD m "content" (Json.str "")
  pure (pyCapitalize role ++ ": " ++ pyStr content ++ "\n")

/-- Rendering of one turn following the convention of the
transcript-array sites (speaker field `speaker`, default `"unknown"`;
content field `text`, default empty). -/
def lineSpeakerText (m : Json) : Except Unit String := do
  let sp ← asStrE (← pyGetD m "speaker" (Json.str "unknown"))
  let t ← pyGetD m "text" (Json.str "")
  pure (pyCapitalize sp ++ ": " ++ pyStr t ++ "\n")

/-- Rendering of one turn following the convention of
`extract_conversation_text` (speaker field `role`, default empty string;
content field `message`, default empty). -/
def lineRoleMessage (m : Json) : Except Unit String := do
  let r ← asStrE (← pyGetD m "role" (Json.str "")) 
  let c ← pyGetD m "message" (Json.str "")
  pure (pyCapitalize r ++ ": " ++ pyStr c ++ "\n")

/-- Per-turn rendering of a whole list, in original order. -/
def mapLinesE (f : Json → Except Unit String) : List Json → Except Unit (List String)
  | [] => Except.ok []
  | m :: ms => do
      let l ← f m
      let ls ← mapLinesE f ms
      pure (l :: ls)

theorem renderRoleContent_eq (ms : List Json) : ∀ acc,
    renderRoleContent ms acc =
      (mapLinesE lineRoleContent ms).map (fun ls => ls.foldl (fun a b => a ++ b) acc) := by
  induction ms with
  | nil => intro acc; rfl
  | cons m ms ih =>
      intro acc
      cases h1 : pyGetD m "role" (Json.str "unknown") with
      | error u =>
          simp [renderRoleContent, mapLinesE, lineRoleContent, h1, Bind.bind, Except.bind,
            Except.map]
      | ok roleJ =>
          cases h2 : asStrE roleJ with
          | error u =>
              simp [renderRoleContent, mapLinesE, lineRoleContent, h1, h2, Bind.bind,
                Except.bind, Except.map]
          | ok role =>
              cases h3 : pyGetD m "content" (Json.str "") with
              | error u =>
                  simp [renderRoleContent, mapLinesE, lineRoleContent, h1, h2, h3, Bind.bind,
                    Except.bind, Except.map]
              | ok content =>
                  simp only [renderRoleContent, mapLinesE, lineRoleContent, h1, h2, h3,
                    Bind.bind, Except.bind, ih]
                  cases h4 : mapLinesE lineRoleContent ms <;>
                    simp [h4, Except.map, pure, Except.pure, List.foldl, String.append_assoc]

theorem renderSpeakerText_eq (ms : List Json) : ∀ acc,
    renderSpeakerText ms acc =
      (mapLinesE lineSpeakerText ms).map (fun ls => ls.foldl (fun a b => a ++ b) acc) := by
  induction ms with
  | nil => intro acc; rfl
  | cons m ms ih =>
      intro acc
      cases h1 : pyGetD m "speaker" (Json.str "unknown") with
      | error u =>
          simp [renderSpeakerText, mapLinesE, lineSpeakerText, h1, Bind.bind, Except.bind,
            Except.map]
      | ok spJ =>
          cases h2 : asStrE spJ with
          | error u =>
              simp [renderSpeakerText, mapLinesE, lineSpeakerText, h1, h2, Bind.bind,
                Except.bind, Except.map]
          | ok sp =>
              cases h3 : pyGetD m "text" (Json.str "") with
              | error u =>
                  simp [renderSpeakerText, mapLinesE, lineSpeakerText, h1, h2, h3, Bind.bind,
                    Except.bind, Except.map]
              | ok t =>
                  simp only [renderSpeakerText, mapLinesE, lineSpeakerText, h1, h2, h3,
                    Bind.bind, Except.bind, ih]
                  cases h4 : mapLinesE lineSpeakerText ms <;>
                    simp [h4, Except.map, pure, Except.pure, List.foldl, String.append_assoc]

theorem extractConvLoop_eq (ms : List Json) : ∀ acc,
    extractConvLoop ms acc =
      (mapLinesE lineRoleMessage ms).map (fun ls => ls.foldl (fun a b => a ++ b) acc) := by
  induction ms with
  | nil => intro acc; rfl
  | cons m ms ih =>
      intro acc
      cases h1 : pyGetD m "role" (Json.str "") with
      | error u =>
          simp [extractConvLoop, mapLinesE, lineRoleMessage, h1, Bind.bind, Except.bind,
            Except.map]
      | ok rJ =>
          cases h2 : asStrE rJ with
          | error u =>
              simp [extractConvLoop, mapLinesE, lineRoleMessage, h1, h2, Bind.bind,
                Except.bind, Except.map]
          | ok r =>
              cases h3 : pyGetD m "message" (Json.str "") with
              | error u =>
                  simp [extractConvLoop, mapLinesE, lineRoleMessage, h1, h2, h3, Bind.bind,
                    Except.bind, Except.map]
              | ok c =>
                  simp only [extractConvLoop, mapLinesE, lineRoleMessage, h1, h2, h3,
                    Bind.bind, Except.bind, ih]
                  cases h4 : mapLinesE lineRoleMessage ms <;>
                    simp [h4, Except.map, pure, Except.pure, List.foldl, String.append_assoc]

/-- Counterexample to C7 as stated: a turn using the `speaker`/`text`
convention rendered by `extract_conversation_text` (which only reads
`role` and `message`) produces `": \n"` — the speaker is not resolved
from `speaker` and the content is not resolved from `text`, so the
renderer does not resolve "whichever pair the turn uses"; moreover the
speaker default at this site is the empty string, not `"unknown"`. -/
theorem C7_counterexample :
    extract_conversation_text
        (Json.obj [("transcript",
          Json.arr [Json.obj [("speaker", Json.str "alice"), ("text", Json.str "hi")]])]) =
      Except.ok ": \n" ∧ (": \n" : String) ≠ "Alice: hi\n" := ⟨rfl, by decide⟩

/-- C7 (amended): each rendering site resolves one fixed field-name pair
rather than whichever pair the turn uses — `role`/`content` at the
message-list sites, `speaker`/`text` at the transcript-array site, and
`role`/`message` in `extract_conversation_text` — with per-site defaults
(`"unknown"` speaker and empty content at the sheets.py sites, empty
speaker at the extract site); each turn renders as `"<Role>: <content>"`
with the role capitalized, turns concatenated in original order. -/
theorem C7_fixed_pair_rendering :
    (∀ ms acc, renderRoleContent ms acc =
      (mapLinesE lineRoleContent ms).map (fun ls => ls.foldl (fun a b => a ++ b) acc)) ∧
    (∀ ms acc, renderSpeakerText ms acc =
      (mapLinesE lineSpeakerText ms).map (fun ls => ls.foldl (fun a b => a ++ b) acc)) ∧
    (∀ ms acc, extractConvLoop ms acc =
      (mapLinesE lineRoleMessage ms).map (fun ls => ls.foldl (fun a b => a ++ b) acc)) :=
  ⟨renderRoleContent_eq, renderSpeakerText_eq, extractConvLoop_eq⟩

/-- C2: persisting a two-entry batch into an empty primary store appends
both rows (plus the header); persisting the same batch again appends
nothing, because the existing-key set is rebuilt from the store's rows
and both composite `date:id` keys are found there.  The hypotheses state
that both entries process successfully, that each key is the composite
of the first two cells of its row (true of `processCall` whenever the
call id is a string), and that neither key collides with the header
row's composite key. -/
theorem C2_dedup (env : PersistEnv) (c0 : CsvFile) (e1 e2 : Json)
    (k1 k2 k1a k1b k2a k2b : String) (r1t r2t : List String)
    (hacq : env.acquireOk = true)
    (h1 : processCall env.parseIso e1 = Except.ok (k1, k1a :: k1b :: r1t))
    (h2 : processCall env.parseIso e2 = Except.ok (k2, k2a :: k2b :: r2t))
    (hk1 : k1 = k1a ++ ":" ++ k1b) (hk2 : k2 = k2a ++ ":" ++ k2b)
    (hh1 : k1 ≠ "Date:Call ID") (hh2 : k2 ≠ "Date:Call ID") :
    save_to_sheets env [e1, e2] [] c0 =
      Except.ok (2, [sheetHeader, k1a :: k1b :: r1t, k2a :: k2b :: r2t], c0) ∧
    save_to_sheets env [e1, e2] [sheetHeader, k1a :: k1b :: r1t, k2a :: k2b :: r2t] c0 =
      Except.ok (0, [sheetHeader, k1a :: k1b :: r1t, k2a :: k2b :: r2t], c0) := by
  have hex1 : get_existing_entries [sheetHeader] = ["Date:Call ID"] := rfl
  have hex2 : get_existing_entries [sheetHeader, k1a :: k1b :: r1t, k2a :: k2b :: r2t] =
      ["Date:Call ID", k1a ++ ":" ++ k1b, k2a ++ ":" ++ k2b] := by
    simp [get_existing_entries, headerDropE, rowKeysE, sheetHeader, Bind.bind, Except.bind,
      pure, Except.pure]
  constructor
  · have hloop : sheetsLoop env.parseIso [e1, e2] ["Date:Call ID"] 0 [sheetHeader] =
        (2, [sheetHeader, k1a :: k1b :: r1t, k2a :: k2b :: r2t]) := by
      simp [sheetsLoop, h1, h2, hh1, hh2]
    simp [save_to_sheets, hacq, hex1, hloop]
  · have hloop2 : sheetsLoop env.parseIso [e1, e2]
        ["Date:Call ID", k1a ++ ":" ++ k1b, k2a ++ ":" ++ k2b] 0
        [sheetHeader, k1a :: k1b :: r1t, k2a :: k2b :: r2t] =
        (0, [sheetHeader, k1a :: k1b :: r1t, k2a :: k2b :: r2t]) := by
      subst hk1 hk2
      simp [sheetsLoop, h1, h2]
    simp [save_to_sheets, hacq, hex2, hloop2]

/-- A concrete ISO parser accepting exactly the timestamp used by the
witness entries. -/
def cParse : String → Option PyDateTime :=
  fun s => if s = "2024-01-02T03:04:05+00:00" then some ⟨2024, 1, 2, 3, 4, 5⟩ else none

/-- A concrete persistence environment with a working primary store. -/
def cEnvP : PersistEnv := ⟨true, cParse⟩

/-- A concrete empty fallback store. -/
def c0W : CsvFile := ⟨false, []⟩

/-- First witness entry for the dedup theorem. -/
def e1W : Json :=
  Json.obj [("date", Json.str "2024-01-02T03:04:05Z"), ("history_item_id", Json.str "a")]

/-- Second witness entry for the dedup theorem. -/
def e2W : Json :=
  Json.obj [("date", Json.str "2024-01-02T03:04:05Z"), ("history_item_id", Json.str "b")]

/-- Tail cells shared by the witness rows. -/
def rowTailW : List String := ["0", "No summary available", "", "", "", "", ""]

/-- Witness for C2 at concrete entries: two rows on the first persist,
zero on the second. -/
theorem C2_dedup_witness :
    save_to_sheets cEnvP [e1W, e2W] [] c0W =
      Except.ok (2, [sheetHeader, "2024-01-02 03:04:05" :: "a" :: rowTailW,
        "2024-01-02 03:04:05" :: "b" :: rowTailW], c0W) ∧
    save_to_sheets cEnvP [e1W, e2W]
        [sheetHeader, "2024-01-02 03:04:05" :: "a" :: rowTailW,
         "2024-01-02 03:04:05" :: "b" :: rowTailW] c0W =
      Except.ok (0, [sheetHeader, "2024-01-02 03:04:05" :: "a" :: rowTailW,
        "2024-01-02 03:04:05" :: "b" :: rowTailW], c0W) :=
  C2_dedup cEnvP c0W e1W e2W "2024-01-02 03:04:05:a" "2024-01-02 03:04:05:b"
    "2024-01-02 03:04:05" "a" "2024-01-02 03:04:05" "b" rowTailW rowTailW
    rfl (by rfl) (by rfl) (by rfl) (by rfl) (by decide) (by decide)

/-- C10: during primary-store persistence, an entry whose processing
raises (here: no `"date"` key, so `call["date"]` raises before the
date-format step) is skipped by the inner handler without aborting the
batch and without touching the fallback store; the remaining entries are
still appended, and the skipped entry is excluded from the returned
count. -/
theorem C10_failing_entry_skipped (env : PersistEnv) (c0 : CsvFile) (g1 b g2 : Json)
    (k1 k3 : String) (r1 r3 : List String)
    (hacq : env.acquireOk = true)
    (h1 : processCall env.parseIso g1 = Except.ok (k1, r1))
    (hb : jIndex b "date" = Except.error ())
    (h3 : processCall env.parseIso g2 = Except.ok (k3, r3))
    (hh1 : k1 ≠ "Date:Call ID") (hh3 : k3 ≠ "Date:Call ID") :
    save_to_sheets env [g1, b, g2] [] c0 = Except.ok (2, [sheetHeader, r1, r3], c0) := by
  have hpb : processCall env.parseIso b = Except.error () := by
    simp [processCall, hb, Bind.bind, Except.bind]
  have hex1 : get_existing_entries [sheetHeader] = ["Date:Call ID"] := rfl
  have hloop : sheetsLoop env.parseIso [g1, b, g2] ["Date:Call ID"] 0 [sheetHeader] =
      (2, [sheetHeader, r1, r3]) := by
    simp [sheetsLoop, h1, hpb, h3, hh1, hh3]
  simp [save_to_sheets, hacq, hex1, hloop]

/-- Witness for C10: a concrete batch whose middle entry lacks a
`"date"` key yields two appended rows and no fallback writes. -/
theorem C10_failing_entry_skipped_witness :
    save_to_sheets cEnvP [e1W, Json.obj [("history_item_id", Json.str "bad")], e2W] [] c0W =
      Except.ok (2, [sheetHeader, "2024-01-02 03:04:05" :: "a" :: rowTailW,
        "2024-01-02 03:04:05" :: "b" :: rowTailW], c0W) :=
  C10_failing_entry_skipped cEnvP c0W e1W (Json.obj [("history_item_id", Json.str "bad")]) e2W
    "2024-01-02 03:04:05:a" "2024-01-02 03:04:05:b"
    ("2024-01-02 03:04:05" :: "a" :: rowTailW) ("2024-01-02 03:04:05" :: "b" :: rowTailW)
    rfl (by rfl) (by rfl) (by rfl) (by decide) (by decide)

/-- `pyGetD` on a dict is total and agrees with `pyGetDTot`. -/
theorem pyGetD_obj (kvs : List (String × Json)) (k : String) (d : Json) :
    pyGetD (Json.obj kvs) k d = Except.ok (pyGetDTot (Json.obj kvs) k d) := by
  unfold pyGetD pyGetDTot
  cases h : kvs.find? (fun p => p.1 = k) <;> simp [h]

/-- `pyOrM` of two successes is `pyOr` of the values. -/
theorem pyOrM_ok (a b : Json) :
    pyOrM (Except.ok a) (Except.ok b) = Except.ok (pyOr a b) := by
  unfold pyOrM pyOr
  split <;> simp_all [Bind.bind, Except.bind, pure, Except.pure]

/-- Total value of the `save_to_csv` item id on dict items. -/
def csvItemIdTot (item : Json) : Json :=
  pyOr (pyGetDTot item "id" Json.null) (pyGetDTot item "history_item_id" Json.null)

/-- On a dict item the id computation succeeds with the total value. -/
theorem csvItemId_obj (kvs : List (String × Json)) :
    csvItemId (Json.obj kvs) = Except.ok (csvItemIdTot (Json.obj kvs)) := by
  unfold csvItemId csvItemIdTot
  rw [pyGetD_obj, pyGetD_obj, pyOrM_ok]

/-- Total value of the row written by `save_to_csv` for a dict item. -/
def csvRowOfTot (item idv : Json) : List (String × String) :=
  [("Date", csvCell (pyGetDTot item "date" Json.null)), ("ID", csvCell idv),
   ("Duration (sec)", csvCell (pyOr (pyOr (pyGetDTot item "duration" Json.null)
      (pyGetDTot item "call_duration" Json.null)) (Json.num 0))),
   ("Summary", csvCell (pyGetDTot item "summary" (Json.str "No summary available"))),
   ("Text", csvCell (pyOr (pyGetDTot item "conversation" Json.null)
      (pyGetDTot item "text" (Json.str "")))),
   ("Major Events", csvCell (pyGetDTot item "major_events" (Json.str ""))),
   ("Mood", csvCell (pyGetDTot item "mood" (Json.str ""))),
   ("Insights", csvCell (pyGetDTot item "insights" (Json.str ""))),
   ("Action Items", csvCell (pyGetDTot item "action_items" (Json.str "")))]

/-- On a dict item the row computation succeeds with the total value. -/
theorem csvRowOf_obj (kvs : List (String × Json)) (idv : Json) :
    csvRowOf (Json.obj kvs) idv = Except.ok (csvRowOfTot (Json.obj kvs) idv) := by
  simp only [csvRowOf, csvRowOfTot, pyGetD_obj, Bind.bind, Except.bind, pure, Except.pure,
    pyOrM_ok]

/-- Count and rows produced by the `save_to_csv` loop over dict items:
exactly the items whose id string is not in the pre-computed existing
set are appended, in order, and only those are counted. -/
theorem csvLoop_spec (ex : List String) :
    ∀ (its : List Json) (n : Nat) (acc : List (List (String × String))),
      (∀ it ∈ its, it.isObj = true) →
      ∃ rows, csvLoop its ex n acc =
        Except.ok (n + (its.filter (fun it => !(jsonMemStr (csvItemIdTot it) ex))).length,
          acc ++ rows) := by
  intro its
  induction its with
  | nil => intro n acc _; exact ⟨[], by simp [csvLoop]⟩
  | cons it its ih =>
      intro n acc hobj
      have hit : it.isObj = true := hobj it (by simp)
      have hrest : ∀ x ∈ its, x.isObj = true := fun x hx => hobj x (by simp [hx])
      cases it with
      | obj kvs =>
          by_cases hmem : jsonMemStr (csvItemIdTot (Json.obj kvs)) ex = true
          · obtain ⟨rows, hr⟩ := ih n acc hrest
            refine ⟨rows, ?_⟩
            simp [csvLoop, csvItemId_obj, Bind.bind, Except.bind, hmem, hr, List.filter]
          · have hmemf : jsonMemStr (csvItemIdTot (Json.obj kvs)) ex = false := by
              simpa using hmem
            obtain ⟨rows, hr⟩ := ih (n + 1) (acc ++ [csvRowOfTot (Json.obj kvs)
              (csvItemIdTot (Json.obj kvs))]) hrest
            refine ⟨csvRowOfTot (Json.obj kvs) (csvItemIdTot (Json.obj kvs)) :: rows, ?_⟩
            simp only [csvLoop, csvItemId_obj, Bind.bind, Except.bind, csvRowOf_obj, hmemf,
              Bool.false_eq_true, if_false, hr, List.filter_cons, Bool.not_false, if_true,
              List.length_cons]
            have hn : n + 1 + (List.filter (fun it => !(jsonMemStr (csvItemIdTot it) ex))
                its).length = n + ((List.filter (fun it => !(jsonMemStr (csvItemIdTot it) ex))
                its).length + 1) := by omega
            simp [hn, List.append_assoc]
      | null => simp [Json.isObj] at hit
      | bool v => simp [Json.isObj] at hit
      | num v => simp [Json.isObj] at hit
      | str v => simp [Json.isObj] at hit
      | arr v => simp [Json.isObj] at hit

/-- C8: when acquiring or authenticating the primary store fails, the
whole batch is redirected to `save_to_csv` and the primary store is left
untouched (no mixing); the fallback scans the flat file's records for
the identifier field (`Call ID`, else `ID`, per `existingIds`) and
appends exactly the entries whose identifier is not already present. -/
theorem C8_fallback_redirect (env : PersistEnv) (calls : List Json)
    (s0 : List (List String)) (c0 : CsvFile)
    (hacq : env.acquireOk = false) (hobj : ∀ it ∈ calls, it.isObj = true) :
    save_to_sheets env calls s0 c0 = (save_to_csv calls c0).map (fun p => (p.1, s0, p.2)) ∧
    ∃ rows, save_to_csv calls c0 = Except.ok
      ((calls.filter (fun it => !(jsonMemStr (csvItemIdTot it)
          (if c0.fileExists then existingIds c0.rows else [])))).length,
       { fileExists := true, rows := c0.rows ++ rows }) := by
  constructor
  · simp [save_to_sheets, hacq]
  · obtain ⟨rows, hr⟩ := csvLoop_spec (if c0.fileExists then existingIds c0.rows else [])
      calls 0 [] hobj
    exact ⟨rows, by simp [save_to_csv, hr, Bind.bind, Except.bind, pure, Except.pure]⟩

/-- A concrete persistence environment whose primary store fails. -/
def cEnvF : PersistEnv := ⟨false, cParse⟩

/-- Concrete batch for the fallback witness. -/
def callsF : List Json := [Json.obj [("id", Json.str "a")], Json.obj [("id", Json.str "c")]]

/-- Concrete fallback store already holding a record with `Call ID` a. -/
def c0F : CsvFile := ⟨true, [[("Call ID", "a")]]⟩

/-- Witness for C8: with the primary store unavailable, a batch of two
entries, one of whose ids is already in the flat file, is redirected
whole to the fallback and exactly one row is appended. -/
theorem C8_fallback_redirect_witness :
    save_to_sheets cEnvF callsF [] c0F = (save_to_csv callsF c0F).map (fun p => (p.1, [], p.2)) ∧
    ∃ rows, save_to_csv callsF c0F = Except.ok
      ((callsF.filter (fun it => !(jsonMemStr (csvItemIdTot it)
          (if c0F.fileExists then existingIds c0F.rows else [])))).length,
       { fileExists := true, rows := c0F.rows ++ rows }) :=
  C8_fallback_redirect cEnvF callsF [] c0F rfl (by
    intro it hit
    simp only [callsF, List.mem_cons, List.not_mem_nil, or_false] at hit
    rcases hit with rfl | rfl <;> rfl)

/-- One unrolling of the retry loop always begins with the page request. -/
theorem attemptLoop_head (net : Net) (url : String) (k : EpKind) (page rem attempt i : Nat)
    (lastSt : Option Nat) :
    ∃ t, (attemptLoop net url k page (rem + 1) attempt i lastSt).evs =
      Ev.req url page :: t := by
  simp only [attemptLoop]
  cases hr : net.resp i with
  | transportErr =>
      dsimp only
      by_cases h : attempt < 2
      · rw [if_pos h]; exact ⟨_, rfl⟩
      · rw [if_neg h]; exact ⟨_, rfl⟩
  | ok r =>
      dsimp only
      by_cases h404 : r.status = 404
      · rw [if_pos h404]; exact ⟨_, rfl⟩
      · rw [if_neg h404]
        by_cases h429 : r.status = 429
        · rw [if_pos h429]; exact ⟨_, rfl⟩
        · rw [if_neg h429]
          by_cases h400 : 400 ≤ r.status
          · rw [if_pos h400]
            by_cases h2 : attempt < 2
            · rw [if_pos h2]; exact ⟨_, rfl⟩
            · rw [if_neg h2]; exact ⟨_, rfl⟩
          · rw [if_neg h400]
            cases hi : itemsOfE k r.body with
            | error u => exact ⟨_, rfl⟩
            | ok itemsJ =>
                dsimp only
                by_cases hpt : (!pyTruthy itemsJ) = true
                · rw [if_pos hpt]; exact ⟨_, rfl⟩
                · rw [if_neg hpt]
                  cases hil : pyIterList itemsJ with
                  | error u => exact ⟨_, rfl⟩
                  | ok items =>
                      dsimp only
                      cases hm : hasMoreE r.body with
                      | error u => exact ⟨_, rfl⟩
                      | ok b =>
                          dsimp only
                          by_cases hb : (!b) = true
                          · rw [if_pos hb]; exact ⟨_, rfl⟩
                          · rw [if_neg hb]; exact ⟨_, rfl⟩

/-- The page loop's trace is exactly its first retry loop's trace: the
loop never runs a second iteration, because line 206 re-binds
`has_more = False` and line 209 therefore always breaks. -/
theorem whileLoop_evs_eq (net : Net) (url : String) (k : EpKind) (fuel page i : Nat)
    (lastSt : Option Nat) (hist : List Json) :
    (whileLoop net url k (fuel + 1) page i lastSt hist).evs =
      (attemptLoop net url k page 3 0 i lastSt).evs := by
  simp only [whileLoop]
  generalize attemptLoop net url k page 3 0 i lastSt = a
  obtain ⟨o, att, ix, ls, evs⟩ := a
  cases o
  case exc => rfl
  all_goals
    dsimp only
    split
    · rfl
    · cases ls with
      | none => rfl
      | some st => simp

/-- The endpoint loop's trace extends its first endpoint's trace. -/
theorem engineLoop_cons (net : Net) (url : String) (k : EpKind)
    (rest : List (String × EpKind)) (i : Nat) :
    ∃ t, (engineLoop net ((url, k) :: rest) i).evs =
      (whileLoop net url k 4 1 i none []).evs ++ t := by
  simp only [engineLoop]
  generalize whileLoop net url k 4 1 i none [] = w
  obtain ⟨res, ix, ls, evs⟩ := w
  cases res with
  | error u => exact ⟨_, rfl⟩
  | ok h =>
      dsimp only
      by_cases he : h.isEmpty = true
      · rw [if_pos he]; exact ⟨_, rfl⟩
      · rw [if_neg he]; exact ⟨[], by simp⟩

/-- The candidate endpoints after the first one. -/
def restEps : List (String × EpKind) :=
  [("https://api.elevenlabs.io/v1/call-logs", EpKind.call_logs),
   ("https://api.elevenlabs.io/v1/calls", EpKind.calls),
   ("https://api.elevenlabs.io/v1/agent/calls", EpKind.agent_calls)]

/-- Network where endpoint 1 serves one page with items and
`has_more = true`, and a second page would be available. -/
def netMulti : Net := ⟨fun i =>
  if i = 0 then NetResult.ok ⟨200, none,
    Json.obj [("history", Json.arr [Json.str "a"]), ("has_more", Json.bool true)]⟩
  else if i = 1 then NetResult.ok ⟨200, none,
    Json.obj [("history", Json.arr [Json.str "b"]), ("has_more", Json.bool false)]⟩
  else NetResult.transportErr⟩

/-- Network for the claim's scenario: endpoint 1 returns 404, endpoint 2
returns one page of three items with `has_more = false`. -/
def netC3 : Net := ⟨fun i =>
  if i = 0 then NetResult.ok ⟨404, none, Json.obj []⟩
  else if i = 1 then NetResult.ok ⟨200, none,
    Json.obj [("call_logs", Json.arr [Json.str "a", Json.str "b", Json.str "c"]),
              ("has_more", Json.bool false)]⟩
  else NetResult.transportErr⟩

/-- Network serving three consecutive 429 responses with
`Retry-After: 7` for endpoint 1, then a successful page on endpoint 2. -/
def net429 : Net := ⟨fun i =>
  if i < 3 then NetResult.ok ⟨429, some 7, Json.obj []⟩
  else if i = 3 then NetResult.ok ⟨200, none,
    Json.obj [("call_logs", Json.arr [Json.str "x"]), ("has_more", Json.bool false)]⟩
  else NetResult.transportErr⟩

/-- Network with three transport failures on endpoint 1, then a
successful page on endpoint 2. -/
def netT : Net := ⟨fun i =>
  if i < 3 then NetResult.transportErr
  else if i = 3 then NetResult.ok ⟨200, none,
    Json.obj [("call_logs", Json.arr [Json.str "y"]), ("has_more", Json.bool false)]⟩
  else NetResult.transportErr⟩

/-- One-step unfolding equation for the retry loop (used to control
rewriting). -/
theorem attemptLoop_succ (net : Net) (url : String) (k : EpKind)
    (page rem attempt i : Nat) (lastSt : Option Nat) :
    attemptLoop net url k page (rem + 1) attempt i lastSt =
      match net.resp i with
      | NetResult.transportErr =>
          if attempt < 2 then
            let a := attemptLoop net url k page rem (attempt + 1) (i + 1) lastSt
            { a with evs := [Ev.req url page, Ev.sleep (2 ^ attempt)] ++ a.evs }
          else
            { out := AOut.exhausted, attempt := attempt, idx := i + 1, lastSt := lastSt,
              evs := [Ev.req url page] }
      | NetResult.ok r =>
          if r.status = 404 then
            { out := AOut.notFound, attempt := attempt, idx := i + 1, lastSt := some r.status,
              evs := [Ev.req url page] }
          else if r.status = 429 then
            let a := attemptLoop net url k page rem (attempt + 1) (i + 1) (some r.status)
            { a with evs := [Ev.req url page, Ev.sleep (r.retryAfter.getD 60)] ++ a.evs }
          else if 400 ≤ r.status then
            if attempt < 2 then
              let a := attemptLoop net url k page rem (attempt + 1) (i + 1) (some r.status)
              { a with evs := [Ev.req url page, Ev.sleep (2 ^ attempt)] ++ a.evs }
            else
              { out := AOut.exhausted, attempt := attempt, idx := i + 1,
                lastSt := some r.status, evs := [Ev.req url page] }
          else
            match itemsOfE k r.body with
            | Except.error _ =>
                { out := AOut.exc, attempt := attempt, idx := i + 1, lastSt := some r.status,
                  evs := [Ev.req url page] }
            | Except.ok itemsJ =>
                if !pyTruthy itemsJ then
                  { out := AOut.noItems, attempt := attempt, idx := i + 1,
                    lastSt := some r.status, evs := [Ev.req url page] }
                else
                  match pyIterList itemsJ with
                  | Except.error _ =>
                      { out := AOut.exc, attempt := attempt, idx := i + 1,
                        lastSt := some r.status, evs := [Ev.req url page] }
                  | Except.ok items =>
                      match hasMoreE r.body with
                      | Except.error _ =>
                          { out := AOut.exc, attempt := attempt, idx := i + 1,
                            lastSt := some r.status, evs := [Ev.req url page] }
                      | Except.ok hm =>
                          if !hm then
                            { out := AOut.pageDone items, attempt := attempt, idx := i + 1,
                              lastSt := some r.status, evs := [Ev.req url page] }
                          else
                            { out := AOut.pageNext items, attempt := attempt, idx := i + 1,
                              lastSt := some r.status, evs := [Ev.req url page] } := rfl

/-- One-step unfolding equation for the page loop. -/
theorem whileLoop_succ (net : Net) (url : String) (k : EpKind)
    (fuel page i : Nat) (lastSt : Option Nat) (hist : List Json) :
    whileLoop net url k (fuel + 1) page i lastSt hist =
      (let a := attemptLoop net url k page 3 0 i lastSt
       match a.out with
       | AOut.exc => { res := Except.error (), idx := a.idx, lastSt := a.lastSt, evs := a.evs }
       | _ =>
           let hist :=
             match a.out with
             | AOut.pageDone items => hist ++ items
             | AOut.pageNext items => hist ++ items
             | _ => hist
           let page :=
             match a.out with
             | AOut.pageNext _ => page + 1
             | _ => page
           if a.attempt = 2 ∧ hist.isEmpty then
             { res := Except.ok hist, idx := a.idx, lastSt := a.lastSt, evs := a.evs }
           else
             let hasMore := false
             match a.lastSt with
             | none => { res := Except.error (), idx := a.idx, lastSt := a.lastSt, evs := a.evs }
             | some st =>
                 if st = 404 || !hasMore then
                   { res := Except.ok hist, idx := a.idx, lastSt := a.lastSt, evs := a.evs }
                 else
                   let w := whileLoop net url k fuel page a.idx a.lastSt hist
                   { w with evs := a.evs ++ w.evs } : WRet) := rfl

/-- C3 (code bug): evaluating `get_call_history` at the failing input —
endpoint 1 answers page 1 with one item and `has_more = true` — shows
the engine returns only page 1's item and issues exactly one request:
it never asks for page 2, because line 206 of sheets.py unconditionally
re-binds `has_more = False` before the loop-continuation test at line
209, contradicting the claim (and the code's own lines 178-188, which
compute `has_more` and advance `page` exactly to continue paginating).
The second conjunct checks the claim's positive scenario: a 404 on
endpoint 1 moves to endpoint 2, whose three items are returned without
contacting endpoints 3 and 4. -/
theorem C3_pagination_bug :
    get_call_history netMulti =
      ([Json.str "a"], [Ev.req "https://api.elevenlabs.io/v1/history" 1]) ∧
    get_call_history netC3 =
      ([Json.str "a", Json.str "b", Json.str "c"],
       [Ev.req "https://api.elevenlabs.io/v1/history" 1,
        Ev.req "https://api.elevenlabs.io/v1/call-logs" 1]) := ⟨rfl, rfl⟩

/-- C4: on three consecutive transport failures for the same page, the
engine sleeps `2 ** 0 = 1` second after the first failure and
`2 ** 1 = 2` seconds after the second (so the third attempt happens only
after a cumulative 1 + 2 seconds of sleep), and the third failure
abandons the endpoint — the next request goes to endpoint 2. -/
theorem C4_backoff (net : Net)
    (h0 : net.resp 0 = NetResult.transportErr)
    (h1 : net.resp 1 = NetResult.transportErr)
    (h2 : net.resp 2 = NetResult.transportErr) :
    ∃ t, (get_call_history net).2 =
      [Ev.req "https://api.elevenlabs.io/v1/history" 1, Ev.sleep 1,
       Ev.req "https://api.elevenlabs.io/v1/history" 1, Ev.sleep 2,
       Ev.req "https://api.elevenlabs.io/v1/history" 1,
       Ev.req "https://api.elevenlabs.io/v1/call-logs" 1] ++ t := by
  have t3 : attemptLoop net "https://api.elevenlabs.io/v1/history" EpKind.standard 1 3 0 0 none =
      { out := AOut.exhausted, attempt := 2, idx := 3, lastSt := none,
        evs := [Ev.req "https://api.elevenlabs.io/v1/history" 1, Ev.sleep 1,
                Ev.req "https://api.elevenlabs.io/v1/history" 1, Ev.sleep 2,
                Ev.req "https://api.elevenlabs.io/v1/history" 1] } := by
    rw [show (3 : Nat) = 2 + 1 from rfl]
    simp only [attemptLoop]
    simp [h0, h1, h2]
  have w1 : whileLoop net "https://api.elevenlabs.io/v1/history" EpKind.standard 4 1 0 none [] =
      { res := Except.ok [], idx := 3, lastSt := none,
        evs := [Ev.req "https://api.elevenlabs.io/v1/history" 1, Ev.sleep 1,
                Ev.req "https://api.elevenlabs.io/v1/history" 1, Ev.sleep 2,
                Ev.req "https://api.elevenlabs.io/v1/history" 1] } := by
    rw [show (4 : Nat) = 3 + 1 from rfl, whileLoop_succ, t3]
    simp
  have hgc : (get_call_history net).2 =
      (engineLoop net (("https://api.elevenlabs.io/v1/history", EpKind.standard) :: restEps) 0).evs :=
    rfl
  have heng : (engineLoop net (("https://api.elevenlabs.io/v1/history", EpKind.standard) ::
        restEps) 0).evs =
      [Ev.req "https://api.elevenlabs.io/v1/history" 1, Ev.sleep 1,
       Ev.req "https://api.elevenlabs.io/v1/history" 1, Ev.sleep 2,
       Ev.req "https://api.elevenlabs.io/v1/history" 1] ++ (engineLoop net restEps 3).evs := by
    simp only [engineLoop]
    rw [w1]
    simp
  have hrest : engineLoop net restEps 3 =
      engineLoop net (("https://api.elevenlabs.io/v1/call-logs", EpKind.call_logs) ::
        [("https://api.elevenlabs.io/v1/calls", EpKind.calls),
         ("https://api.elevenlabs.io/v1/agent/calls", EpKind.agent_calls)]) 3 := rfl
  obtain ⟨tl, htl⟩ := engineLoop_cons net "https://api.elevenlabs.io/v1/call-logs"
    EpKind.call_logs
    [("https://api.elevenlabs.io/v1/calls", EpKind.calls),
     ("https://api.elevenlabs.io/v1/agent/calls", EpKind.agent_calls)] 3
  have hw2 : (whileLoop net "https://api.elevenlabs.io/v1/call-logs" EpKind.call_logs
      4 1 3 none []).evs =
      (attemptLoop net "https://api.elevenlabs.io/v1/call-logs" EpKind.call_logs
        1 3 0 3 none).evs := by
    have h := whileLoop_evs_eq net "https://api.elevenlabs.io/v1/call-logs" EpKind.call_logs
      3 1 3 none []
    simpa using h
  obtain ⟨th, hth⟩ := attemptLoop_head net "https://api.elevenlabs.io/v1/call-logs"
    EpKind.call_logs 1 2 0 3 none
  have hth' : (attemptLoop net "https://api.elevenlabs.io/v1/call-logs" EpKind.call_logs
      1 3 0 3 none).evs = Ev.req "https://api.elevenlabs.io/v1/call-logs" 1 :: th := by
    simpa using hth
  refine ⟨th ++ tl, ?_⟩
  rw [hgc, heng, hrest, htl, hw2, hth']
  simp

/-- Witness for C4: at a concrete network with three transport failures
on endpoint 1, the trace begins with the two backoff sleeps and then the
request to endpoint 2. -/
theorem C4_backoff_witness :
    ∃ t, (get_call_history netT).2 =
      [Ev.req "https://api.elevenlabs.io/v1/history" 1, Ev.sleep 1,
       Ev.req "https://api.elevenlabs.io/v1/history" 1, Ev.sleep 2,
       Ev.req "https://api.elevenlabs.io/v1/history" 1,
       Ev.req "https://api.elevenlabs.io/v1/call-logs" 1] ++ t :=
  C4_backoff netT rfl rfl rfl

/-- Counterexample to C5 as stated: three consecutive 429 responses for
endpoint 1 exhaust the 3-attempt budget (the `continue` at sheets.py
line 148 advances the `for attempt` loop), so the engine makes exactly
three requests to endpoint 1 and then abandons it for endpoint 2 — the
rate-limit retry does count against the retry budget, contrary to the
claim, under which endpoint 1 would still be retried. -/
theorem C5_counterexample :
    get_call_history net429 =
      ([Json.str "x"],
       [Ev.req "https://api.elevenlabs.io/v1/history" 1, Ev.sleep 7,
        Ev.req "https://api.elevenlabs.io/v1/history" 1, Ev.sleep 7,
        Ev.req "https://api.elevenlabs.io/v1/history" 1, Ev.sleep 7,
        Ev.req "https://api.elevenlabs.io/v1/call-logs" 1]) ∧
    (get_call_history net429).2.count (Ev.req "https://api.elevenlabs.io/v1/history" 1) = 3 :=
  ⟨rfl, rfl⟩

/-- C5 (amended): on a 429 response the engine sleeps for the duration
named in the `Retry-After` header (60 seconds when absent) and then
retries the same page of the same endpoint — but, as the counterexample
shows, that retry consumes one of the three attempts of the retry
budget rather than being free. -/
theorem C5_rate_limit_sleep (net : Net) (w : Option Nat) (b : Json)
    (h0 : net.resp 0 = NetResult.ok ⟨429, w, b⟩) :
    ∃ t, (get_call_history net).2 =
      [Ev.req "https://api.elevenlabs.io/v1/history" 1, Ev.sleep (w.getD 60),
       Ev.req "https://api.elevenlabs.io/v1/history" 1] ++ t := by
  obtain ⟨th, hth⟩ := attemptLoop_head net "https://api.elevenlabs.io/v1/history"
    EpKind.standard 1 1 1 1 (some 429)
  have hth' : (attemptLoop net "https://api.elevenlabs.io/v1/history" EpKind.standard
      1 2 1 1 (some 429)).evs = Ev.req "https://api.elevenlabs.io/v1/history" 1 :: th := by
    simpa using hth
  have hA : (attemptLoop net "https://api.elevenlabs.io/v1/history" EpKind.standard
      1 3 0 0 none).evs =
      [Ev.req "https://api.elevenlabs.io/v1/history" 1, Ev.sleep (w.getD 60)] ++
        (Ev.req "https://api.elevenlabs.io/v1/history" 1 :: th) := by
    rw [show (3 : Nat) = 2 + 1 from rfl, attemptLoop_succ, h0]
    simp [hth']
  have hw : (whileLoop net "https://api.elevenlabs.io/v1/history" EpKind.standard
      4 1 0 none []).evs =
      (attemptLoop net "https://api.elevenlabs.io/v1/history" EpKind.standard
        1 3 0 0 none).evs := by
    have h := whileLoop_evs_eq net "https://api.elevenlabs.io/v1/history" EpKind.standard
      3 1 0 none []
    simpa using h
  obtain ⟨tl, htl⟩ := engineLoop_cons net "https://api.elevenlabs.io/v1/history"
    EpKind.standard restEps 0
  have hgc : (get_call_history net).2 =
      (engineLoop net (("https://api.elevenlabs.io/v1/history", EpKind.standard) ::
        restEps) 0).evs := rfl
  refine ⟨th ++ tl, ?_⟩
  rw [hgc, htl, hw, hA]
  simp

/-- Witness for the amended C5: at the concrete 429 network the trace
begins with the `Retry-After` sleep of 7 seconds and a retry of the same
page. -/
theorem C5_rate_limit_sleep_witness :
    ∃ t, (get_call_history net429).2 =
      [Ev.req "https://api.elevenlabs.io/v1/history" 1, Ev.sleep 7,
       Ev.req "https://api.elevenlabs.io/v1/history" 1] ++ t :=
  C5_rate_limit_sleep net429 (some 7) (Json.obj []) rfl
